import Mathlib

/-!
Shallow embedding of the frogweather weather-station core
(`frogweather/frogweather.py`) and proofs about its specification.

Time is modelled by a `DateTime` record carrying an absolute timestamp in
seconds (rational, standing for the `datetime` value used in interval
comparisons) together with the calendar/clock fields the code reads.
Python floats are modelled as rationals; machine rounding of small decimal
literals is irrelevant at the magnitudes the code handles.
-/

namespace Frogweather

/-- Minimum wait between two Weather API calls, in seconds:
`max(timedelta(seconds=10), timedelta(days=31) / 1000000)`. -/
def waittime : ℚ := max 10 (31 * 86400 / 1000000)

/-- Instant of a refresh: absolute seconds plus the calendar fields read
by the code (`now.month`, `now.day`, `now.hour`, `now.minute`). -/
structure DateTime where
  epoch : ℚ
  month : ℕ
  day : ℕ
  hour : ℕ
  minute : ℕ
deriving DecidableEq

/-- Mutable weather state of the module: `_weatherupdate`, `_temp`,
`_precip`, `_desc`. -/
structure WState where
  weatherupdate : Option ℚ
  temp : Option ℚ
  precip : Option ℚ
  desc : Option String
deriving DecidableEq

/-- Weather API response fields actually read by the code:
`current.temp_c`, `current.is_day`, `current.condition.text`, and the
flattened `forecast.forecastday[].hour[].chance_of_rain` list (percent
values, in hour order starting at hour 0 of the current day). -/
structure Response where
  temp_c : ℚ
  is_day : Bool
  conditionText : String
  chanceOfRain : List ℚ
deriving DecidableEq

/-- Dictionary lookup of `response_to_desc`: exact translation of the
condition-text table; a text outside the table raises `KeyError`,
modelled as `none`. -/
def responseToDesc (r : Response) : Option String :=
  match r.conditionText with
  | "Sunny" => some "clear-day"
  | "Clear" => some (if r.is_day then "clear-day" else "clear-night")
  | "Partly cloudy" => some (if r.is_day then "partly-cloudy-day" else "partly-cloudy-night")
  | "Cloudy" => some "cloudy"
  | "Overcast" => some "cloudy"
  | "Mist" => some "fog"
  | "Patchy rain possible" => some "rain"
  | "Patchy snow possible" => some "snow"
  | "Patchy sleet possible" => some "sleet"
  | "Patchy freezing drizzle possible" => some "sleet"
  | "Thundery outbreaks possible" => some "thunderstorm"
  | "Blowing snow" => some "snow"
  | "Blizzard" => some "snow"
  | "Fog" => some "fog"
  | "Freezing fog" => some "fog"
  | "Patchy light drizzle" => some "rain"
  | "Light drizzle" => some "rain"
  | "Freezing drizzle" => some "sleet"
  | "Heavy freezing drizzle" => some "sleet"
  | "Patchy light rain" => some "rain"
  | "Light rain" => some "rain"
  | "Moderate rain at times" => some "rain"
  | "Moderate rain" => some "rain"
  | "Heavy rain at times" => some "rain"
  | "Heavy rain" => some "rain"
  | "Light freezing rain" => some "sleet"
  | "Moderate or heavy freezing rain" => some "sleet"
  | "Light sleet" => some "sleet"
  | "Moderate or heavy sleet" => some "sleet"
  | "Patchy light snow" => some "snow"
  | "Light snow" => some "snow"
  | "Patchy moderate snow" => some "snow"
  | "Moderate snow" => some "snow"
  | "Patchy heavy snow" => some "snow"
  | "Heavy snow" => some "snow"
  | "Ice pellets" => some "sleet"
  | "Light rain shower" => some "rain"
  | "Moderate or heavy rain shower" => some "rain"
  | "Torrential rain shower" => some "thunderstorm"
  | "Light sleet showers" => some "sleet"
  | "Moderate or heavy sleet showers" => some "sleet"
  | "Light snow showers" => some "snow"
  | "Moderate or heavy snow showers" => some "snow"
  | "Light showers of ice pellets" => some "sleet"
  | "Moderate or heavy showers of ice pellets" => some "sleet"
  | "Patchy light rain with thunder" => some "thunderstorm"
  | "Moderate or heavy rain with thunder" => some "thunderstorm"
  | "Patchy light snow with thunder" => some "snow"
  | "Moderate or heavy snow with thunder" => some "snow"
  | _ => none

/-- Outcome of the network interaction inside the `try` block of
`_update_weather`: `netFail` stands for an exception raised before
`_temp` is assigned (connection error, non-JSON body, missing
`current`/`temp_c` keys); `ok` stands for a structurally complete
response, in which the only remaining failure is an unmapped condition
text inside `response_to_desc`. -/
inductive FetchOutcome where
  | netFail
  | ok (resp : Response)

/-- Rate gate of `_update_weather`: `_weatherupdate and now - _weatherupdate < _waittime`
(a `datetime` is always truthy, so truthiness is `isSome`). -/
def gateBlocked (s : WState) (now : DateTime) : Bool :=
  match s.weatherupdate with
  | none => false
  | some t => now.epoch - t < waittime

/-- New-year override of `_update_weather`, applied right after the
fields are reset and before the provider is consulted. -/
def applyOverride (now : DateTime) (s : WState) : WState :=
  if now.month = 1 ∧ now.day = 1 then { s with desc := some "new-years-day" }
  else if now.month = 12 ∧ now.day = 31 then { s with desc := some "new-years-eve" }
  else s

/-- Per-hour rain probabilities `pp_rain` (chance percentages scaled by
`0.01`) restricted to the slice `[now.hour : now.hour + 3]`. -/
def precipWindow (chances : List ℚ) (h : ℕ) : List ℚ :=
  ((chances.map (fun c => c * (1 / 100))).drop h).take 3

/-- Precipitation probability computed by `_update_weather`:
`p_dry` starts at `1.0` and is multiplied by `1 - p_rain` over the
window; the result is `1 - p_dry`. -/
def precipProb (chances : List ℚ) (h : ℕ) : ℚ :=
  1 - (precipWindow chances h).foldl (fun a p => a * (1 - p)) 1

/-- Body of the `try` block of `_update_weather` after the reset and the
override: assigns `_temp` from `temp_c`, then maps the condition text
when `_desc` is still `None` (an unmapped text raises `KeyError`, caught
by the handler with `_temp` already assigned), then computes `_precip`. -/
def tryFetch (now : DateTime) (s : WState) (f : FetchOutcome) : WState :=
  match f with
  | .netFail => s
  | .ok resp =>
    let s1 := { s with temp := some resp.temp_c }
    match s1.desc with
    | some _ => { s1 with precip := some (precipProb resp.chanceOfRain now.hour) }
    | none =>
      match responseToDesc resp with
      | none => s1
      | some d => { s1 with desc := some d, precip := some (precipProb resp.chanceOfRain now.hour) }

/-- Function `_update_weather`. The boolean records whether a network
query was issued (the gate passed). On the gated path the state is
returned untouched. Past the gate, `_weatherupdate` is set to `now`, the
three snapshot fields are cleared, the override is applied, and the
fetch is attempted; every exception is caught inside, so the function is
total. -/
def updateWeather (s : WState) (now : DateTime) (f : FetchOutcome) : WState × Bool :=
  if gateBlocked s now then (s, false)
  else
    let s1 : WState := { weatherupdate := some now.epoch, temp := none, precip := none, desc := none }
    (tryFetch now (applyOverride now s1) f, true)

/-- Supported image extensions `_imageexts`. -/
def imageexts : List String := [".png", ".bmp", ".jpg", ".jpeg"]

/-- Directory entry as seen by `os.listdir`, restricted to what the code
reads from it: `path` is the joined path of the entry and `ext` models
`os.path.splitext(path)[-1].lower()`. -/
structure FileEntry where
  path : String
  ext : String
deriving DecidableEq

/-- Entry of a description directory: either a temperature-band
subdirectory — `bounds` is `[float(b) for b in name.split(sep)]`, never
empty since `split` yields at least one piece — or a plain file. -/
inductive DirEntry where
  | subdir (bounds : List ℚ) (files : List FileEntry)
  | plain (f : FileEntry)
deriving DecidableEq

/-- Band test `temprange[0] <= round(_temp) <= temprange[-1]`. -/
def bandMatch (bounds : List ℚ) (rt : ℤ) : Bool :=
  match bounds with
  | [] => false
  | b :: bs => decide ((b ≤ (rt : ℚ)) ∧ ((rt : ℚ) ≤ bs.getLastD b))

/-- Supported-extension files of a listing, in listing order (the list
comprehension with the `_imageexts` membership filter). -/
def imageFiles (fs : List FileEntry) : List String :=
  (fs.filter (fun f => f.ext ∈ imageexts)).map FileEntry.path

/-- First collection loop of `_update_background`: for every directory
entry whose band contains the rounded temperature, `imagefiles` is
extended with the supported-extension files inside it. -/
def bandCandidates (entries : List DirEntry) (rt : ℤ) : List String :=
  entries.foldl
    (fun acc e =>
      match e with
      | .subdir bounds fs => if bandMatch bounds rt then acc ++ imageFiles fs else acc
      | .plain _ => acc)
    []

/-- Second collection loop of `_update_background`: the
supported-extension plain files directly inside the description
directory. -/
def descCandidates (entries : List DirEntry) : List String :=
  entries.foldl
    (fun acc e =>
      match e with
      | .subdir _ _ => acc
      | .plain f => if f.ext ∈ imageexts then acc ++ [f.path] else acc)
    []

/-- Filesystem as the code observes it: `descDirs` associates a
description tag with the listing of `<imagedir>/<desc>` (absence means
`os.listdir` raises there, which every caller catches), and `rootFiles`
is the listing of the global image root (a failed root listing behaves
as an empty one, both yielding zero candidates). -/
structure FS where
  descDirs : List (String × List DirEntry)
  rootFiles : List FileEntry

/-- Python 3 `round` on a rational: nearest integer, ties to even. -/
def pyRound (q : ℚ) : ℤ :=
  if q - ⌊q⌋ < 1 / 2 then ⌊q⌋
  else if 1 / 2 < q - ⌊q⌋ then ⌊q⌋ + 1
  else if ⌊q⌋ % 2 = 0 then ⌊q⌋ else ⌊q⌋ + 1

/-- Candidate collection of `_update_background` (lines building
`imagefiles`): the banded search runs only when `_desc` and `_temp` are
truthy (for a float, nonzero); if it yields nothing the description
defaults are used; if the description level yields nothing the global
root is scanned. -/
def computeCandidates (fs : FS) (desc : Option String) (temp : Option ℚ) : List String :=
  let files1 : List String :=
    match desc with
    | none => []
    | some d =>
      if d = "" then []
      else
        match List.lookup d fs.descDirs with
        | none => []
        | some entries =>
          let band : List String :=
            match temp with
            | none => []
            | some t => if t = 0 then [] else bandCandidates entries (pyRound t)
          if band = [] then descCandidates entries else band
  if files1 = [] then imageFiles fs.rootFiles else files1

/-- Background raster: either a file loaded with `Image.open` or the
monochrome `Image.new` fallback. -/
inductive BGImage where
  | fromFile (path : String)
  | solid (width height : ℕ) (color : String)
deriving DecidableEq

/-- Background state of the module: `_backgroundfile` and `_background`
(the latter starts as `None`). -/
structure BGState where
  backgroundfile : Option String
  background : Option BGImage
deriving DecidableEq

/-- Membership test `_backgroundfile in imagefiles`; `None` is never an
element of a list of path strings. -/
def memberOfCandidates (bf : Option String) (files : List String) : Bool :=
  match bf with
  | none => false
  | some p => p ∈ files

/-- Selection step of `_update_background`: keep the current selection
when it is among the candidates; otherwise pick a random candidate and
load it, or synthesize the blue 64x128 image when there is none.
`choice` models the draw `random.randint(0, len(imagefiles) - 1)`,
reduced modulo the length so that it always denotes a valid index. The
boolean records whether `Image.open` was called. -/
def selectBackground (st : BGState) (imagefiles : List String) (choice : ℕ) : BGState × Bool :=
  if memberOfCandidates st.backgroundfile imagefiles then (st, false)
  else if imagefiles = [] then
    ({ backgroundfile := none, background := some (BGImage.solid 64 128 "blue") }, false)
  else
    let p := imagefiles.getD (choice % imagefiles.length) ""
    ({ backgroundfile := some p, background := some (BGImage.fromFile p) }, true)

/-- Function `_update_background` composed from its pieces: refresh the
weather, collect candidates from the refreshed description and
temperature, then run the selection step. -/
def updateBackground (w : WState) (bg : BGState) (now : DateTime) (f : FetchOutcome)
    (fs : FS) (choice : ℕ) : WState × BGState × Bool :=
  let w2 := (updateWeather w now f).1
  let sel := selectBackground bg (computeCandidates fs w2.desc w2.temp) choice
  (w2, sel.1, sel.2)

/-- Decimal digits of a natural number, most significant first, with
explicit fuel (the first argument) so that the kernel can evaluate it;
`natChars` supplies enough fuel for any input. -/
def natCharsCore : ℕ → ℕ → List Char
  | 0, _ => []
  | fuel + 1, n =>
    if n < 10 then [Nat.digitChar n]
    else natCharsCore fuel (n / 10) ++ [Nat.digitChar (n % 10)]

/-- Decimal rendering of a natural number, no leading zeros. -/
def natChars (n : ℕ) : List Char := natCharsCore (n + 1) n

/-- Rendering of an integer under format `d` (default sign handling):
a minus sign for negatives, nothing for the rest. -/
def intChars (n : ℤ) : List Char :=
  if n < 0 then '-' :: natChars n.natAbs else natChars n.natAbs

/-- Rendering of an integer under the space-sign flag of
`'\x7b:> 3.0f\x7d'`: a minus sign for negatives, a blank for the rest. -/
def intCharsSp (n : ℤ) : List Char :=
  if n < 0 then '-' :: natChars n.natAbs else ' ' :: natChars n.natAbs

/-- Right justification to width `w` with blank fill; a longer text is
left untouched, as in Python format padding. -/
def padLeftChars (w : ℕ) (l : List Char) : List Char :=
  List.replicate (w - l.length) ' ' ++ l

/-- Temperature field of `_render_image`: empty when `_temp` is `None`,
otherwise the value under format `'\x7b:> 3.0f\x7d'` (round to integer,
ties to even; space sign; width 3) followed by the degree mark. -/
def tempText : Option ℚ → String
  | none => ""
  | some t => String.mk (padLeftChars 3 (intCharsSp (pyRound t)) ++ ['°'])

/-- Integer percentage displayed for a precipitation probability:
`min(_precip, 0.99)` scaled by 100 and rounded to 0 decimal places. -/
def precipPct (p : ℚ) : ℤ := pyRound (min p (99 / 100) * 100)

/-- Precipitation field of `_render_image`: empty when `_precip` is
`None`, otherwise `min(_precip, 0.99)` under format `'\x7b:>4.0%\x7d'`. -/
def precipText : Option ℚ → String
  | none => ""
  | some p => String.mk (padLeftChars 4 (intChars (precipPct p) ++ ['%']))

/-- Hour displayed by `strftime` directive `%I` (12-hour clock, 1..12). -/
def hour12 (h : ℕ) : ℕ := (h + 11) % 12 + 1

/-- Zero-padded two-digit rendering used by `%I` and `%M`. -/
def twoChars (n : ℕ) : List Char :=
  if n < 10 then '0' :: natChars n else natChars n

/-- Text `strftime('%I:%M')`. -/
def clockChars (h m : ℕ) : List Char := twoChars (hour12 h) ++ ':' :: twoChars m

/-- Replacement `str.replace(c, r, n)` for single characters: the first
`n` occurrences of `c` are replaced by `r`, the rest is untouched. -/
def replaceN : List Char → Char → Char → ℕ → List Char
  | [], _, _, _ => []
  | x :: xs, _, _, 0 => x :: xs
  | x :: xs, c, r, n + 1 =>
    if x = c then r :: replaceN xs c r n else x :: replaceN xs c r (n + 1)

/-- Clock field of `_render_image`: `'\x7b:>5\x7d'.format(strftime('%I:%M'))`
followed by `replace('0', ' ', int(clocktext[0] == '0'))`, which blanks
the leading zero of a single-digit hour. -/
def clockText (h m : ℕ) : String :=
  let l := padLeftChars 5 (clockChars h m)
  String.mk (replaceN l '0' ' ' (if l.headD ' ' = '0' then 1 else 0))

/-- Rendered frame: the background raster plus the three text fields
drawn on the copy (anchors, fonts and color are fixed constants of the
code and carry no logic). -/
structure Frame where
  background : BGImage
  clock : String
  temp : String
  precip : String
deriving DecidableEq

/-- Function `_render_image` after `_update_background` has run:
composites the current state into a frame. The code reads a fresh
`datetime.now()` for the clock; a single `now` stands for the instant of
the whole step. When `_background` is `None` the code would fail on
`.copy()`, but `_update_background` always leaves a background present;
the default is unreachable. -/
def renderImage (bg : Option BGImage) (w : WState) (now : DateTime) : Frame :=
  { background := bg.getD (BGImage.solid 64 128 "blue")
    clock := clockText now.hour now.minute
    temp := tempText w.temp
    precip := precipText w.precip }

/-- Module state touched by `update` / `get_image`: weather state,
background state, the rendered image `_image`, and `_clockupdate`. -/
structure AppState where
  weather : WState
  bg : BGState
  image : Option Frame
  clockupdate : Option DateTime
deriving DecidableEq

/-- Module state right after import and `init()`: every cached value is
`None` (`init` only loads the key, the session, the location and the
fonts). -/
def initState : AppState :=
  { weather := { weatherupdate := none, temp := none, precip := none, desc := none }
    bg := { backgroundfile := none, background := none }
    image := none
    clockupdate := none }

/-- Render condition of `update`: no clock render yet, or the minute
changed, or no weather fetch yet, or the wait time elapsed. -/
def updateDue (st : AppState) (now : DateTime) : Bool :=
  match st.clockupdate with
  | none => true
  | some cu =>
    if now.minute ≠ cu.minute then true
    else
      match st.weather.weatherupdate with
      | none => true
      | some wt => waittime ≤ now.epoch - wt

/-- Full render step (`_render_image`, which first runs
`_update_background`, which first runs `_update_weather`). -/
def renderStep (st : AppState) (now : DateTime) (f : FetchOutcome) (fs : FS)
    (choice : ℕ) : AppState :=
  let w2 := (updateWeather st.weather now f).1
  let bg2 := (selectBackground st.bg (computeCandidates fs w2.desc w2.temp) choice).1
  { weather := w2
    bg := bg2
    image := some (renderImage bg2.background w2 now)
    clockupdate := some now }

/-- Function `update`: renders when due and reports whether a new image
was produced. -/
def update (st : AppState) (now : DateTime) (f : FetchOutcome) (fs : FS)
    (choice : ℕ) : AppState × Bool :=
  if updateDue st now then (renderStep st now f fs choice, true) else (st, false)

/-- Function `get_image`: returns `_image` as it is. -/
def get_image (st : AppState) : Option Frame := st.image

/-- Candidate set described by the specification for the banded search,
written from its words for comparison with the code: the files of every
band whose inclusive range contains the rounded temperature, in listing
order. -/
def allMatchingBandFiles (entries : List DirEntry) (rt : ℤ) : List String :=
  (entries.map fun e =>
    match e with
    | .subdir bounds fs => if bandMatch bounds rt then imageFiles fs else []
    | .plain _ => []).flatten

/-- Weather state with every cached value absent, as after `init()`. -/
def emptyW : WState := ⟨none, none, none, none⟩

/-- Ordinary refresh instant: March 5, midnight, epoch second 0. -/
def nowPlain : DateTime := ⟨0, 3, 5, 0, 0⟩

/-- Response whose condition text is not a key of the
`response_to_desc` table. -/
def respUnmapped : Response := ⟨20, true, "Volcanic ash", [0, 0, 0]⟩

/-- Well-formed response with a mapped condition text and a 50 percent
rain chance in the first hour. -/
def respSunny : Response := ⟨10, true, "Sunny", [50, 0, 0]⟩

/-- Filesystem with two overlapping temperature bands under the `rain`
tag, each holding one image. -/
def fsOverlap : FS :=
  ⟨[("rain", [.subdir [0, 10] [⟨"a.png", ".png"⟩], .subdir [5, 15] [⟨"b.png", ".png"⟩]])], []⟩

/-- Filesystem whose `cloudy` tag has a band containing temperature 0
with an image, a description-level default image, and a root image. -/
def fsZeroTemp : FS :=
  ⟨[("cloudy", [.subdir [-5, 5] [⟨"band.png", ".png"⟩], .plain ⟨"default.png", ".png"⟩])],
   [⟨"root.png", ".png"⟩]⟩

/-- C4: a refresh that falls inside the minimum interval after the
recorded last fetch issues no network query and leaves the snapshot
fields and the last-fetch timestamp unchanged — the state is returned
exactly as it was and the query flag is false, for every fetch
environment. -/
theorem updateWeather_gate_no_second_query (s : WState) (now : DateTime)
    (f : FetchOutcome) (t : ℚ) (hw : s.weatherupdate = some t)
    (hlt : now.epoch - t < waittime) :
    updateWeather s now f = (s, false) := by
  have hg : gateBlocked s now = true := by
    unfold gateBlocked
    rw [hw]
    exact decide_eq_true hlt
  simp [updateWeather, hg]

/-- Witness for `updateWeather_gate_no_second_query`: with the last
fetch recorded at second 0, a refresh at second 5 is a no-op. -/
theorem updateWeather_gate_no_second_query_witness :
    updateWeather ⟨some 0, none, none, none⟩ ⟨5, 6, 15, 12, 0⟩ FetchOutcome.netFail
      = (⟨some 0, none, none, none⟩, false) :=
  updateWeather_gate_no_second_query _ _ _ 0 rfl (by norm_num [waittime])

/-- C3: when the currently selected background file is among the fresh
candidates, the selection step returns the background state unchanged
(file path and loaded image alike) and performs no image load. -/
theorem selectBackground_keeps_current (st : BGState) (files : List String)
    (choice : ℕ) (p : String) (hf : st.backgroundfile = some p)
    (hm : p ∈ files) :
    selectBackground st files choice = (st, false) := by
  have hmem : memberOfCandidates st.backgroundfile files = true := by
    unfold memberOfCandidates
    rw [hf]
    exact decide_eq_true hm
  simp [selectBackground, hmem]

/-- Witness for `selectBackground_keeps_current`. -/
theorem selectBackground_keeps_current_witness :
    selectBackground ⟨some "a.png", some (BGImage.fromFile "a.png")⟩ ["a.png", "b.png"] 1
      = (⟨some "a.png", some (BGImage.fromFile "a.png")⟩, false) :=
  selectBackground_keeps_current _ _ _ "a.png" rfl (by simp)

/-- C5: past the rate gate, on January 1 the description is forced to
`new-years-day` and on December 31 to `new-years-eve`, for every fetch
outcome (success or failure alike, hence before and independently of the
provider response); the provider-derived description is stored only when
no override applies. -/
theorem updateWeather_newyear_override (s : WState) (now : DateTime)
    (hgate : gateBlocked s now = false) :
    (∀ f, now.month = 1 ∧ now.day = 1 →
      ((updateWeather s now f).1).desc = some "new-years-day") ∧
    (∀ f, now.month = 12 ∧ now.day = 31 →
      ((updateWeather s now f).1).desc = some "new-years-eve") ∧
    (∀ resp d, ¬(now.month = 1 ∧ now.day = 1) → ¬(now.month = 12 ∧ now.day = 31) →
      responseToDesc resp = some d →
      ((updateWeather s now (FetchOutcome.ok resp)).1).desc = some d) := by
  refine ⟨?_, ?_, ?_⟩
  · intro f h
    obtain ⟨h1, h2⟩ := h
    cases f with
    | netFail => simp [updateWeather, hgate, applyOverride, tryFetch, h1, h2]
    | ok resp => simp [updateWeather, hgate, applyOverride, tryFetch, h1, h2]
  · intro f h
    obtain ⟨h1, h2⟩ := h
    cases f with
    | netFail => simp [updateWeather, hgate, applyOverride, tryFetch, h1, h2]
    | ok resp => simp [updateWeather, hgate, applyOverride, tryFetch, h1, h2]
  · intro resp d h1 h2 hd
    simp [updateWeather, hgate, applyOverride, tryFetch, h1, h2, hd]

/-- Witness for `updateWeather_newyear_override`: on January 1 a failed
fetch still leaves the forced description. -/
theorem updateWeather_newyear_override_witness :
    ((updateWeather emptyW ⟨0, 1, 1, 0, 0⟩ FetchOutcome.netFail).1).desc
      = some "new-years-day" :=
  (updateWeather_newyear_override emptyW ⟨0, 1, 1, 0, 0⟩ rfl).1
    FetchOutcome.netFail ⟨rfl, rfl⟩

/-- C8: with an empty candidate set the selection step raises no error
and produces the synthesized blue 64x128 image with the selected path
cleared; and in every case a selected file path is a member of the
candidate set computed at resolution time. -/
theorem selectBackground_fallback_sound (st : BGState) (files : List String)
    (choice : ℕ) :
    (files = [] →
      selectBackground st files choice =
        (⟨none, some (BGImage.solid 64 128 "blue")⟩, false)) ∧
    (∀ p, ((selectBackground st files choice).1).backgroundfile = some p →
      p ∈ files) := by
  constructor
  · intro h
    subst h
    cases hb : st.backgroundfile <;>
      simp [selectBackground, memberOfCandidates, hb]
  · intro p hp
    by_cases hmem : memberOfCandidates st.backgroundfile files = true
    · rw [selectBackground, if_pos hmem] at hp
      simp at hp
      rw [hp] at hmem
      unfold memberOfCandidates at hmem
      exact of_decide_eq_true hmem
    · rw [selectBackground, if_neg hmem] at hp
      by_cases hnil : files = []
      · rw [if_pos hnil] at hp
        simp at hp
      · rw [if_neg hnil] at hp
        simp at hp
        have hlen : choice % files.length < files.length :=
          Nat.mod_lt _ (List.length_pos.mpr hnil)
        rw [List.getElem?_eq_getElem hlen] at hp
        simp at hp
        rw [← hp]
        exact List.getElem_mem hlen

/-- Witness for `selectBackground_fallback_sound`: the empty candidate
set yields the blue placeholder. -/
theorem selectBackground_fallback_sound_witness :
    selectBackground ⟨none, none⟩ [] 0
      = (⟨none, some (BGImage.solid 64 128 "blue")⟩, false) :=
  (selectBackground_fallback_sound ⟨none, none⟩ [] 0).1 rfl

/-- C10: with a stored temperature of exactly 0 and a present
description whose directory exists, the banded lookup is skipped -
`if _temp` tests numeric truthiness, and `0.0` is falsy - so the
candidates come from the description-level defaults (or the root
fallback when there are none), whatever banded subdirectories exist. -/
theorem computeCandidates_zero_temp_skips_band (fs : FS) (d : String)
    (entries : List DirEntry)
    (hd : List.lookup d fs.descDirs = some entries) (hne : d ≠ "") :
    computeCandidates fs (some d) (some 0) =
      if descCandidates entries = [] then imageFiles fs.rootFiles
      else descCandidates entries := by
  simp [computeCandidates, hd, hne]

/-- Witness for `computeCandidates_zero_temp_skips_band`: at 0 degrees
the band `-5_5` holding `band.png` is ignored and the description-level
default is used. -/
theorem computeCandidates_zero_temp_skips_band_witness :
    computeCandidates fsZeroTemp (some "cloudy") (some 0) = ["default.png"] := by
  rw [computeCandidates_zero_temp_skips_band fsZeroTemp "cloudy"
    [DirEntry.subdir [-5, 5] [⟨"band.png", ".png"⟩], DirEntry.plain ⟨"default.png", ".png"⟩]
    (by simp [fsZeroTemp, List.lookup]) (by decide)]
  simp [descCandidates, imageFiles, imageexts, fsZeroTemp]

/-- C1 counterexample: a refresh that passes the rate gate and fails on
an unmapped condition text leaves the snapshot partially populated -
`_temp` is assigned from `temp_c` before `response_to_desc` raises, so
the temperature is present while precipitation and description are
absent. -/
theorem updateWeather_partial_snapshot_counterexample :
    ((updateWeather emptyW nowPlain (FetchOutcome.ok respUnmapped)).1).temp = some 20 ∧
    ((updateWeather emptyW nowPlain (FetchOutcome.ok respUnmapped)).1).precip = none ∧
    ((updateWeather emptyW nowPlain (FetchOutcome.ok respUnmapped)).1).desc = none := by
  have hrd : responseToDesc ⟨20, true, "Volcanic ash", [0, 0, 0]⟩ = none := by
    simp [responseToDesc]
  refine ⟨?_, ?_, ?_⟩ <;>
    simp [updateWeather, gateBlocked, emptyW, nowPlain, respUnmapped,
      applyOverride, tryFetch, hrd]

/-- C1 amended: past the rate gate and outside the New Year override
dates, a failure before the temperature assignment (network or JSON
error) leaves all three snapshot fields absent, while an
unmapped-condition failure leaves the temperature populated with
precipitation and description absent; in both cases no exception
escapes (`updateWeather` is total). -/
theorem updateWeather_failure_fields (s : WState) (now : DateTime) (resp : Response)
    (hgate : gateBlocked s now = false)
    (h1 : ¬(now.month = 1 ∧ now.day = 1)) (h2 : ¬(now.month = 12 ∧ now.day = 31)) :
    (((updateWeather s now FetchOutcome.netFail).1).temp = none ∧
     ((updateWeather s now FetchOutcome.netFail).1).precip = none ∧
     ((updateWeather s now FetchOutcome.netFail).1).desc = none) ∧
    (responseToDesc resp = none →
     ((updateWeather s now (FetchOutcome.ok resp)).1).temp = some resp.temp_c ∧
     ((updateWeather s now (FetchOutcome.ok resp)).1).precip = none ∧
     ((updateWeather s now (FetchOutcome.ok resp)).1).desc = none) := by
  constructor
  · refine ⟨?_, ?_, ?_⟩ <;> simp [updateWeather, hgate, applyOverride, tryFetch, h1, h2]
  · intro hrd
    refine ⟨?_, ?_, ?_⟩ <;>
      simp [updateWeather, hgate, applyOverride, tryFetch, h1, h2, hrd]

/-- Witness for `updateWeather_failure_fields`: concrete instance of the
network-failure conjunct. -/
theorem updateWeather_failure_fields_witness :
    ((updateWeather emptyW nowPlain FetchOutcome.netFail).1).temp = none ∧
    ((updateWeather emptyW nowPlain FetchOutcome.netFail).1).precip = none ∧
    ((updateWeather emptyW nowPlain FetchOutcome.netFail).1).desc = none :=
  (updateWeather_failure_fields emptyW nowPlain respUnmapped rfl
    (by decide) (by decide)).1

/-- C2 counterexample: with two overlapping bands `0_10` and `5_15` both
matching temperature 7, the candidate set contains the files of both
bands, not only those of the first matching one - the loop extends
`imagefiles` for every matching directory. -/
theorem computeCandidates_band_overlap_counterexample :
    bandMatch [0, 10] (pyRound 7) = true ∧
    bandMatch [5, 15] (pyRound 7) = true ∧
    computeCandidates fsOverlap (some "rain") (some 7) = ["a.png", "b.png"] := by
  have hr : pyRound 7 = 7 := by norm_num [pyRound]
  have hm1 : bandMatch [0, 10] (7 : ℤ) = true := by
    simp [bandMatch]
    norm_num
  have hm2 : bandMatch [5, 15] (7 : ℤ) = true := by
    simp [bandMatch]
    norm_num
  refine ⟨by rw [hr]; exact hm1, by rw [hr]; exact hm2, ?_⟩
  simp [computeCandidates, fsOverlap, List.lookup, bandCandidates, hr, hm1, hm2,
    imageFiles, imageexts]

/-- Generalized accumulator form of the band-collection loop. -/
theorem bandCandidates_foldl_eq (entries : List DirEntry) (rt : ℤ)
    (acc : List String) :
    entries.foldl
      (fun acc e =>
        match e with
        | .subdir bounds fs => if bandMatch bounds rt then acc ++ imageFiles fs else acc
        | .plain _ => acc)
      acc = acc ++ allMatchingBandFiles entries rt := by
  induction entries generalizing acc with
  | nil => simp [allMatchingBandFiles]
  | cons e t ih =>
    cases e with
    | subdir bounds fs =>
      by_cases hb : bandMatch bounds rt = true
      · simp [allMatchingBandFiles, hb, ih, List.append_assoc]
      · simp [allMatchingBandFiles, hb, ih]
    | plain f => simp [allMatchingBandFiles, ih]

/-- C2 amended: for a truthy description and temperature with an
existing description directory, when the banded search finds anything
the candidate set is exactly the concatenation, in listing order over
ALL bands whose inclusive range contains the rounded temperature, of
the supported-extension files inside them (not only the first matching
band); every candidate belongs to some matching band. -/
theorem computeCandidates_bands_exact (fs : FS) (d : String) (t : ℚ)
    (entries : List DirEntry)
    (hd : List.lookup d fs.descDirs = some entries) (hne : d ≠ "") (ht : t ≠ 0)
    (hband : bandCandidates entries (pyRound t) ≠ []) :
    computeCandidates fs (some d) (some t) = allMatchingBandFiles entries (pyRound t) ∧
    (∀ p ∈ computeCandidates fs (some d) (some t), ∃ bounds fls,
      DirEntry.subdir bounds fls ∈ entries ∧
      bandMatch bounds (pyRound t) = true ∧ p ∈ imageFiles fls) := by
  have hcode : bandCandidates entries (pyRound t) = allMatchingBandFiles entries (pyRound t) := by
    unfold bandCandidates
    rw [bandCandidates_foldl_eq]
    simp
  have hcc : computeCandidates fs (some d) (some t) = bandCandidates entries (pyRound t) := by
    simp only [computeCandidates, hd, if_neg hne, if_neg ht, if_neg hband]
  constructor
  · rw [hcc, hcode]
  · intro p hp
    rw [hcc, hcode] at hp
    unfold allMatchingBandFiles at hp
    rw [List.mem_flatten] at hp
    obtain ⟨l, hl, hpl⟩ := hp
    rw [List.mem_map] at hl
    obtain ⟨e, he, hel⟩ := hl
    cases e with
    | subdir bounds fls =>
      by_cases hb : bandMatch bounds (pyRound t) = true
      · refine ⟨bounds, fls, he, hb, ?_⟩
        rw [← hel] at hpl
        simpa [hb] using hpl
      · rw [← hel] at hpl
        simp [hb] at hpl
    | plain f =>
      rw [← hel] at hpl
      simp at hpl

/-- Witness for `computeCandidates_bands_exact` at the overlapping-band
filesystem and temperature 7. -/
theorem computeCandidates_bands_exact_witness :
    computeCandidates fsOverlap (some "rain") (some 7) =
      allMatchingBandFiles
        [DirEntry.subdir [0, 10] [⟨"a.png", ".png"⟩],
         DirEntry.subdir [5, 15] [⟨"b.png", ".png"⟩]] (pyRound 7) :=
  (computeCandidates_bands_exact fsOverlap "rain" 7
    [DirEntry.subdir [0, 10] [⟨"a.png", ".png"⟩],
     DirEntry.subdir [5, 15] [⟨"b.png", ".png"⟩]]
    (by simp [fsOverlap, List.lookup]) (by decide) (by norm_num)
    (by
      have hr : pyRound 7 = 7 := by norm_num [pyRound]
      have hm1 : bandMatch [0, 10] (7 : ℤ) = true := by
        simp [bandMatch]
        norm_num
      have hm2 : bandMatch [5, 15] (7 : ℤ) = true := by
        simp [bandMatch]
        norm_num
      simp [bandCandidates, hr, hm1, hm2, imageFiles, imageexts])).1

/-- C9 counterexample: after initialization but before any `update()`,
`get_image()` returns the module-level initial value of `_image`, which
is `None` - an absent value, not a placeholder frame. -/
theorem get_image_initial_counterexample : get_image initState = none := rfl

/-- C9 amended: before the first render `get_image()` returns an absent
value (there is no initial placeholder frame); the first `update()`
call always renders (no clock update has been recorded yet), returns
true, and afterwards `get_image()` returns a present frame. -/
theorem get_image_none_until_first_update :
    get_image initState = none ∧
    ∀ (now : DateTime) (f : FetchOutcome) (fs : FS) (choice : ℕ),
      (update initState now f fs choice).2 = true ∧
      ∃ fr, get_image ((update initState now f fs choice).1) = some fr := by
  refine ⟨rfl, ?_⟩
  intro now f fs choice
  constructor
  · simp [update, updateDue, initState]
  · simp [update, updateDue, initState, renderStep, get_image]

/-- Accumulating product loop rewritten as a list product. -/
theorem foldl_mul_one_sub (l : List ℚ) (a : ℚ) :
    l.foldl (fun x p => x * (1 - p)) a = a * (l.map (fun p => 1 - p)).prod := by
  induction l generalizing a with
  | nil => simp
  | cons p t ih => simp [ih, mul_assoc]

/-- Closed form of the precipitation probability: one minus the product
of the no-rain factors over the three-hour window. -/
theorem precipProb_eq (c : List ℚ) (h : ℕ) :
    precipProb c h = 1 - (((c.drop h).take 3).map (fun x => 1 - x * (1 / 100))).prod := by
  unfold precipProb precipWindow
  rw [foldl_mul_one_sub, one_mul, ← List.map_drop, ← List.map_take, List.map_map]
  rfl

/-- Pointwise-dominated nonnegative factor lists have comparable
products, and the dominated product is nonnegative. -/
theorem prod_nonneg_le (a b : List ℚ)
    (h : List.Forall₂ (fun x y => 0 ≤ y ∧ y ≤ x) a b) :
    0 ≤ b.prod ∧ b.prod ≤ a.prod := by
  induction h with
  | nil => simp
  | cons hxy htail ih =>
    obtain ⟨hy0, hyx⟩ := hxy
    obtain ⟨h0, hle⟩ := ih
    refine ⟨mul_nonneg hy0 h0, ?_⟩
    simp only [List.prod_cons]
    exact mul_le_mul hyx hle h0 (le_trans hy0 hyx)

/-- Raising each rain chance lowers each no-rain factor while keeping it
nonnegative (given the chances stay at most 100). -/
theorem forall2_factors (l1 l2 : List ℚ) (h : List.Forall₂ (· ≤ ·) l1 l2)
    (hb : ∀ y ∈ l2, y ≤ 100) :
    List.Forall₂ (fun a b => 0 ≤ b ∧ b ≤ a)
      (l1.map fun c => 1 - c * (1 / 100)) (l2.map fun c => 1 - c * (1 / 100)) := by
  induction h with
  | nil => simp
  | @cons x y t1 t2 hxy htail ih =>
    have hy : y ≤ 100 := hb y (by simp)
    have hrest : ∀ z ∈ t2, z ≤ 100 := fun z hz => hb z (by simp [hz])
    refine List.Forall₂.cons ⟨by linarith, by linarith⟩ (ih hrest)

/-- Product of factors lying in the unit interval lies in the unit
interval. -/
theorem prod_unit_interval (l : List ℚ) (h : ∀ x ∈ l, 0 ≤ x ∧ x ≤ 1) :
    0 ≤ l.prod ∧ l.prod ≤ 1 := by
  induction l with
  | nil => simp
  | cons x t ih =>
    obtain ⟨hx0, hx1⟩ := h x (by simp)
    obtain ⟨h0, h1⟩ := ih (fun z hz => h z (by simp [hz]))
    simp only [List.prod_cons]
    constructor
    · exact mul_nonneg hx0 h0
    · calc x * t.prod ≤ 1 * 1 := mul_le_mul hx1 h1 h0 one_pos.le
        _ = 1 := one_mul 1

/-- Product of unit-interval factors is 1 exactly when every factor is 1. -/
theorem prod_eq_one_iff (l : List ℚ) (h : ∀ x ∈ l, 0 ≤ x ∧ x ≤ 1) :
    l.prod = 1 ↔ ∀ x ∈ l, x = 1 := by
  induction l with
  | nil => simp
  | cons x t ih =>
    obtain ⟨hx0, hx1⟩ := h x (by simp)
    have hrest : ∀ z ∈ t, 0 ≤ z ∧ z ≤ 1 := fun z hz => h z (by simp [hz])
    obtain ⟨h0, h1⟩ := prod_unit_interval t hrest
    simp only [List.prod_cons, List.mem_cons]
    constructor
    · intro hprod
      have htp : t.prod = 1 := by nlinarith
      have hx : x = 1 := by rw [htp, mul_one] at hprod; exact hprod
      intro z hz
      rcases hz with hz | hz
      · rw [hz]; exact hx
      · exact (ih hrest).1 htp z hz
    · intro hall
      have hx : x = 1 := hall x (Or.inl rfl)
      have htp : t.prod = 1 := (ih hrest).2 (fun z hz => hall z (Or.inr hz))
      rw [hx, htp, one_mul]

/-- C6: whenever a refresh stores a precipitation probability, the value
is one minus the product of the no-rain probabilities over the three
forecast hours starting at the current hour; the computed probability is
monotonically non-decreasing in each hourly rain chance, and is zero
exactly when every considered hourly chance is zero. -/
theorem precip_formula_monotone_zero (s : WState) (now : DateTime)
    (resp : Response) (q : ℚ)
    (hgate : gateBlocked s now = false)
    (hq : ((updateWeather s now (FetchOutcome.ok resp)).1).precip = some q) :
    q = 1 - (((resp.chanceOfRain.drop now.hour).take 3).map
        (fun c => 1 - c * (1 / 100))).prod ∧
    (∀ (c1 c2 : List ℚ) (h : ℕ), List.Forall₂ (· ≤ ·) c1 c2 →
      (∀ x ∈ c2, x ≤ 100) → precipProb c1 h ≤ precipProb c2 h) ∧
    (∀ (c : List ℚ) (h : ℕ), (∀ x ∈ c, 0 ≤ x ∧ x ≤ 100) →
      (precipProb c h = 0 ↔ ∀ x ∈ (c.drop h).take 3, x = 0)) := by
  refine ⟨?_, ?_, ?_⟩
  · have hqv : q = precipProb resp.chanceOfRain now.hour := by
      simp only [updateWeather, hgate, Bool.false_eq_true, if_false, tryFetch] at hq
      rcases hdesc : (applyOverride now
          ⟨some now.epoch, none, none, none⟩).desc with _ | dd
      · rw [hdesc] at hq
        rcases hrd : responseToDesc resp with _ | d
        · rw [hrd] at hq
          have : (applyOverride now ⟨some now.epoch, none, none, none⟩).precip = none := by
            unfold applyOverride
            split
            · rfl
            · split <;> rfl
          simp [this] at hq
        · rw [hrd] at hq
          simp at hq
          exact hq.symm
      · rw [hdesc] at hq
        simp at hq
        exact hq.symm
    rw [hqv, precipProb_eq]
  · intro c1 c2 h hf hb
    have hw : List.Forall₂ (fun a b => 0 ≤ b ∧ b ≤ a)
        (((c1.drop h).take 3).map fun c => 1 - c * (1 / 100))
        (((c2.drop h).take 3).map fun c => 1 - c * (1 / 100)) :=
      forall2_factors _ _ (List.forall₂_take 3 (List.forall₂_drop h hf))
        (fun y hy => hb y (List.mem_of_mem_drop (List.mem_of_mem_take hy)))
    have := prod_nonneg_le _ _ hw
    rw [precipProb_eq, precipProb_eq]
    linarith [this.2]
  · intro c h hb
    have hfact : ∀ y ∈ ((c.drop h).take 3).map (fun x => 1 - x * (1 / 100)),
        0 ≤ y ∧ y ≤ 1 := by
      intro y hy
      rw [List.mem_map] at hy
      obtain ⟨x, hx, hxy⟩ := hy
      obtain ⟨hx0, hx100⟩ := hb x (List.mem_of_mem_drop (List.mem_of_mem_take hx))
      constructor <;> [skip; skip] <;> rw [← hxy] <;> [linarith; linarith]
    rw [precipProb_eq, sub_eq_zero]
    rw [eq_comm, prod_eq_one_iff _ hfact]
    constructor
    · intro hall x hx
      have := hall (1 - x * (1 / 100)) (List.mem_map_of_mem _ hx)
      linarith
    · intro hall y hy
      rw [List.mem_map] at hy
      obtain ⟨x, hx, hxy⟩ := hy
      have := hall x hx
      rw [← hxy, this]
      norm_num

/-- Witness for `precip_formula_monotone_zero`: a successful refresh
with hourly chances 50, 0, 0 at hour 0 stores probability one half,
matching the window product formula. -/
theorem precip_formula_monotone_zero_witness :
    (1 : ℚ) / 2 = 1 - (((respSunny.chanceOfRain.drop nowPlain.hour).take 3).map
        (fun c => 1 - c * (1 / 100))).prod :=
  (precip_formula_monotone_zero emptyW nowPlain respSunny (1 / 2) rfl
    (by
      have hrd : responseToDesc ⟨10, true, "Sunny", [50, 0, 0]⟩ = some "clear-day" := by
        simp [responseToDesc]
      simp [updateWeather, gateBlocked, emptyW, nowPlain, respSunny, applyOverride,
        tryFetch, hrd, precipProb, precipWindow]
      norm_num)).1

/-- Rounding never exceeds an integer upper bound of its argument. -/
theorem pyRound_le_intCast (q : ℚ) (n : ℤ) (h : q ≤ (n : ℚ)) : pyRound q ≤ n := by
  have hf : ⌊q⌋ ≤ n := by
    have := Int.floor_le_floor h
    rwa [Int.floor_intCast] at this
  by_cases h1 : q - ⌊q⌋ < 1 / 2
  · unfold pyRound
    rw [if_pos h1]
    exact hf
  · have hhalf : (1 : ℚ) / 2 ≤ q - ⌊q⌋ := not_lt.mp h1
    have hlt : (⌊q⌋ : ℚ) < (n : ℚ) := by linarith
    have h2 : ⌊q⌋ < n := by exact_mod_cast hlt
    unfold pyRound
    rw [if_neg h1]
    split
    · omega
    · split <;> omega

/-- Displayed percentage value is capped at 99. -/
theorem precipPct_le_99 (p : ℚ) : precipPct p ≤ 99 := by
  apply pyRound_le_intCast
  have hm : min p (99 / 100) ≤ 99 / 100 := min_le_right _ _
  have : min p (99 / 100) * 100 ≤ (99 / 100) * 100 :=
    mul_le_mul_of_nonneg_right hm (by norm_num)
  push_cast
  linarith

/-- Two decimal digits suffice below one hundred. -/
theorem natChars_short : ∀ n : ℕ, n < 100 → (natChars n).length ≤ 2 := by decide

/-- Padding to width 4 of a text of at most 3 characters starts with a
blank. -/
theorem padLeftChars_four_short (l : List Char) (hl : l.length ≤ 3) :
    padLeftChars 4 l = ' ' :: (List.replicate (3 - l.length) ' ' ++ l) := by
  unfold padLeftChars
  have h4 : 4 - l.length = (3 - l.length) + 1 := by omega
  rw [h4, List.replicate_succ]
  rfl

/-- Rendered precipitation field never reads 100 percent. -/
theorem precipText_ne_100 (p : ℚ) : precipText (some p) ≠ "100%" := by
  have hn : precipPct p ≤ 99 := precipPct_le_99 p
  unfold precipText
  intro hcontra
  have hdata : padLeftChars 4 (intChars (precipPct p) ++ ['%']) = ['1', '0', '0', '%'] := by
    have := congrArg String.data hcontra
    simpa using this
  by_cases hneg : precipPct p < 0
  · rw [intChars, if_pos hneg, List.cons_append] at hdata
    rcases h4 : 4 - ('-' :: (natChars (precipPct p).natAbs ++ ['%'])).length with _ | j
    · unfold padLeftChars at hdata
      rw [h4] at hdata
      simp at hdata
    · unfold padLeftChars at hdata
      rw [h4, List.replicate_succ] at hdata
      simp at hdata
  · have h0 : 0 ≤ precipPct p := not_lt.mp hneg
    have habs : (precipPct p).natAbs < 100 := by omega
    have hlen : (natChars (precipPct p).natAbs ++ ['%']).length ≤ 3 := by
      rw [List.length_append]
      have := natChars_short _ habs
      simp only [List.length_cons, List.length_nil]
      omega
    rw [intChars, if_neg hneg, padLeftChars_four_short _ hlen] at hdata
    exact absurd (List.head_eq_of_cons_eq hdata) (by decide)

/-- C7: temperature -3.2 renders as `" -3°"`; precipitation probability
0.995 renders as `" 99%"` and no probability ever renders as `"100%"`;
clock time 09:05 renders as `" 9:05"` with a leading blank; an absent
temperature or precipitation renders as the empty field. -/
theorem render_fields_format :
    tempText (some (-16 / 5)) = " -3°" ∧
    precipText (some (995 / 1000)) = " 99%" ∧
    (∀ p : ℚ, precipText (some p) ≠ "100%") ∧
    clockText 9 5 = " 9:05" ∧
    tempText none = "" ∧
    precipText none = "" := by
  refine ⟨?_, ?_, precipText_ne_100, ?_, rfl, rfl⟩
  · have h : pyRound (-16 / 5) = -3 := by norm_num [pyRound]
    simp [tempText, h, intCharsSp, padLeftChars, natChars, natCharsCore]
    decide
  · have h : precipPct (995 / 1000) = 99 := by
      have hm : min ((995 : ℚ) / 1000) (99 / 100) = 99 / 100 := by norm_num [min_def]
      norm_num [precipPct, hm, pyRound]
    simp [precipText, h, intChars, padLeftChars, natChars, natCharsCore]
    decide
  · decide

/-- Witness for `render_fields_format`: the cap rules out `"100%"` at
probability 1. -/
theorem render_fields_format_witness : ¬ precipText (some 1) = "100%" :=
  render_fields_format.2.2.1 1

end Frogweather
